/-
Verification development for the gaze-app repository (src/generate_gaze.py and
src/gaze_server.py).

The generation pipeline of `generate_gaze.py` and the HTTP orchestration of
`gaze_server.py` are shallowly embedded below.  Numeric values that Python
holds as floats are modelled as exact rationals; Python's builtin `round`
(banker's rounding, round-half-to-even) is modelled by `pyRoundInt` /
`pyRound2`.  Stateful parts of the server (the module-level
`_SESSION_PROGRESS` dict) are modelled by explicit association lists that the
handler threads through its steps.  Fallible Python code is modelled with
`Except PyError`.
-/
import Mathlib

namespace GazeApp

/-! ## Python `round` (round-half-to-even)

`generate_gaze.py` uses Python's builtin `round` in two places:
`round(-15 + i * step, 2)` (line 233, two decimal places) and
`round(i * (grid_size - 1) / (target_grid_size - 1))` (line 317, to an
integer).  Python rounds ties to the nearest even integer. -/

/-- Python's `round(q)` for a real (modelled rational) argument: nearest
integer, ties to even. -/
def pyRoundInt (q : ℚ) : ℤ :=
  if q - ⌊q⌋ < 1/2 then ⌊q⌋
  else if 1/2 < q - ⌊q⌋ then ⌊q⌋ + 1
  else if ⌊q⌋ % 2 = 0 then ⌊q⌋ else ⌊q⌋ + 1

/-- Python's `round(q, 2)`: round to two decimal places, ties to even. -/
def pyRound2 (q : ℚ) : ℚ :=
  (pyRoundInt (q * 100) : ℚ) / 100

/-! ## Grid Parameter Builder (generate_gaze.py lines 231-252)

`step = 30 / (grid_size - 1)`; `values = [round(-15 + i * step, 2) for i in
range(grid_size)]`; then a row-major double loop (`for y in values: for x in
values:`) produces one parameter dict per cell.  The definition below is only
meaningful for `grid_size ≥ 2`: for `grid_size = 1` the source raises
`ZeroDivisionError` (modelled in `generateGridBody` below; Lean's total
division would silently give `30 / 0 = 0` here). -/

def buildValues (g : ℕ) : List ℚ :=
  (List.range g).map fun i : ℕ => pyRound2 (-15 + (i : ℚ) * (30 / ((g : ℚ) - 1)))

/-- One parameter dict of `all_params` (lines 244-252). -/
structure GazeParam where
  x : ℚ
  y : ℚ
  pupil_x : ℚ
  pupil_y : ℚ
  head_pitch : ℚ
  head_yaw : ℚ
  eyebrow : ℚ
deriving DecidableEq, Repr

/-- Per-cell parameter policy (lines 238-242): `pupil_x = float(x)`,
`pupil_y = float(y) * -1`, `head_pitch = float(y) / 2`,
`head_yaw = float(x) / 2 * -1`, `eyebrow = max(0, float(y) * -1)`. -/
def mkGazeParam (x y : ℚ) : GazeParam :=
  { x := x
    y := y
    pupil_x := x
    pupil_y := y * -1
    head_pitch := y / 2
    head_yaw := x / 2 * -1
    eyebrow := max 0 (y * -1) }

def buildParams (g : ℕ) : List GazeParam :=
  (buildValues g).flatMap fun y => (buildValues g).map fun x => mkGazeParam x y

/-! ## Quadrant Compositor (generate_gaze.py lines 309-411) -/

/-- The `index_map` of `create_quadrant_ffmpeg` (lines 313-317): identity when
the target resolution equals the grid size, otherwise evenly spaced subsampled
indices `round(i * (grid_size - 1) / (target_grid_size - 1))`.  Only used by
the source with `target_grid_size ≥ 2`. -/
def indexMapFor (grid_size target_grid_size : ℕ) : List ℤ :=
  if target_grid_size = grid_size then
    (List.range grid_size).map Int.ofNat
  else
    (List.range target_grid_size).map fun i : ℕ =>
      pyRoundInt ((i : ℚ) * ((grid_size : ℚ) - 1) / ((target_grid_size : ℚ) - 1))

/-- The quadrant list of `create_quadrant_ffmpeg` (lines 319-324):
`(name, row_start, col_start)` with `half = target_grid_size // 2`. -/
def quadrantsFor (half : ℕ) : List (String × ℕ × ℕ) :=
  [("q0", 0, 0), ("q1", 0, half), ("q2", half, 0), ("q3", half, half)]

/-- The set of grid cells `(row_start + local_row, col_start + local_col)`
visited by one quadrant's double loop over `local_row, local_col ∈ [0, half)`
(lines 333-336 / 392-395). -/
def quadrantCells (half rowStart colStart : ℕ) : Finset (ℕ × ℕ) :=
  (Finset.range half ×ˢ Finset.range half).image fun p =>
    (rowStart + p.1, colStart + p.2)

/-- All cells of the `g × g` grid. -/
def gridCells (g : ℕ) : Finset (ℕ × ℕ) :=
  Finset.range g ×ˢ Finset.range g

/-- `index_map[n]` as read by both compositor loops (lines 338-339 and
396-397); in every use of the source the index is in bounds. -/
def idxAt (indexMap : List ℤ) (n : ℕ) : ℤ :=
  indexMap.getD n 0

/-- The sequence of cells fed to FFmpeg in frame order by
`create_quadrant_ffmpeg` (lines 331-351): `frame_num` counts through the
row-major double loop whether or not the cell is present in `image_grid`
(`none` models an absent cell, whose frame file is simply not written). -/
def ffmpegFrameCells {α : Type} (grid : ℤ × ℤ → Option α) (indexMap : List ℤ)
    (half rowStart colStart : ℕ) : List (Option α) :=
  (List.range half).flatMap fun local_row =>
    (List.range half).map fun local_col =>
      grid (idxAt indexMap (rowStart + local_row), idxAt indexMap (colStart + local_col))

/-- The blit sequence of the PIL fallback `create_quadrant_pil`
(lines 383-411): each cell is pasted at canvas position
`(local_row * img_h, local_col * img_w)`; `none` models a cell absent from
`image_grid`, whose canvas block keeps its zero initialisation. -/
def pilBlits {α : Type} (grid : ℤ × ℤ → Option α) (indexMap : List ℤ)
    (half rowStart colStart imgH imgW : ℕ) : List ((ℕ × ℕ) × Option α) :=
  (List.range half).flatMap fun local_row =>
    (List.range half).map fun local_col =>
      ((local_row * imgH, local_col * imgW),
       grid (idxAt indexMap (rowStart + local_row), idxAt indexMap (colStart + local_col)))

/-! ## Python exceptions and the `generate_grid` run model -/

/-- The Python exceptions relevant to the embedded pipeline. -/
inductive PyError where
  /-- `TypeError`: a call passes more positional arguments than the callee
  accepts.  This is what `generate_grid(...)` raises when `gaze_server.py`
  (lines 404-413) passes 7 positional arguments to a method whose signature
  (generate_gaze.py line 218) has only 6 parameters after `self`. -/
  | typeError
  /-- `ZeroDivisionError` from `step = 30 / (grid_size - 1)`
  (generate_gaze.py line 232) when `grid_size = 1`. -/
  | zeroDivision
  /-- `ValueError("No face detected in the source image")` raised by
  `prepare_source` (generate_gaze.py lines 95-97). -/
  | noFace
  /-- The failure on a degenerate `grid_size ≤ 0`: `values` is empty, so
  `generated_images` stays empty and `generated_images[0]` (line 286) raises
  `IndexError` (for negative sizes the batched `torch.cat` on an empty list
  fails slightly earlier; either way the run raises). -/
  | emptyGrid
deriving DecidableEq, Repr

/-- Events observable in the session's output directory during one
`generate_grid` run: a quadrant sprite write (with the branch that produced
it: `true` = FFmpeg tiling succeeded, `false` = PIL fallback, lines 366-376)
or the `metadata.json` write (lines 425-440). -/
inductive FileEvent where
  | quadrantFile (name : String) (viaFfmpeg : Bool)
  | metadataFile
deriving DecidableEq, Repr

/-- The output of one successful `generate_grid` run: the ordered file events,
and the quadrant-ready callback invocations it performs.  The body of
`generate_grid` in src/generate_gaze.py (lines 218-443) neither accepts nor
invokes any quadrant callback, so `callbacks` is always empty. -/
structure GridRunOut where
  files : List FileEvent
  callbacks : List (ℕ × String)
deriving DecidableEq, Repr

/-- The four sprite writes of one `create_quadrant_ffmpeg(target, suffix)`
call, in quadrant order q0, q1, q2, q3 (lines 319-324, 326, 354, 405-406).
`br` reports, per output file name, whether the FFmpeg subprocess succeeded
(otherwise `create_quadrant_pil` writes the same file). -/
def quadrantWrites (suffix : String) (br : String → Bool) : List FileEvent :=
  ["q0", "q1", "q2", "q3"].map fun q =>
    FileEvent.quadrantFile (q ++ suffix ++ ".webp") (br (q ++ suffix ++ ".webp"))

/-- The 8 sprite file names produced by one run: the primary-resolution
quadrants (suffix "", line 414) then the mobile-resolution quadrants
(suffix "_20", lines 416-418). -/
def spriteFileNames : List String :=
  ["q0.webp", "q1.webp", "q2.webp", "q3.webp",
   "q0_20.webp", "q1_20.webp", "q2_20.webp", "q3_20.webp"]

/-- Environment oracles for one request: outcomes of the external effects the
pipeline performs.  The neural renderer and background matting are external
collaborators assumed to succeed once a face is found. -/
structure HandlerEnv where
  /-- whether `base64.b64decode(req.image_base64)` succeeds (gaze_server.py line 309) -/
  decodeOk : Bool
  /-- whether `get_generator` succeeds (gaze_server.py line 395) -/
  loadOk : Bool
  /-- whether the cropper finds a face (generate_gaze.py lines 95-97) -/
  faceOk : Bool
  /-- per sprite file name: whether the FFmpeg tiling subprocess succeeds
  (generate_gaze.py lines 366-376); `false` selects the PIL fallback -/
  branch : String → Bool
  /-- per quadrant index: whether that quadrant's scheduled upload succeeds
  (gaze_server.py lines 374-390) -/
  uploadOk : ℕ → Bool
  /-- width of the generated cells (generate_gaze.py line 287) -/
  imgW : ℕ
  /-- height of the generated cells (generate_gaze.py line 287) -/
  imgH : ℕ
  /-- whether the generated cells carry an alpha channel (line 288) -/
  hasAlpha : Bool

/-- The body of `generate_grid` (generate_gaze.py lines 218-443) when entered
with a well-formed argument list, reduced to its error behaviour and its
output-directory file events.  Order of checks follows the source: the
source image is prepared first (face detection, line 229), then
`step = 30 / (grid_size - 1)` divides by zero for `grid_size = 1` (line 232);
a non-positive size dies at line 286 (`generated_images[0]`).  Otherwise the
run writes the 4 primary sprites, the 4 mobile sprites, and finally
`metadata.json`.  The body performs no uploads and no callback invocations. -/
def generateGridBody (grid_size : ℤ) (env : HandlerEnv) : Except PyError GridRunOut :=
  if env.faceOk = false then .error .noFace
  else if grid_size = 1 then .error .zeroDivision
  else if grid_size ≤ 0 then .error .emptyGrid
  else .ok
    { files := quadrantWrites "" env.branch ++ quadrantWrites "_20" env.branch
        ++ [FileEvent.metadataFile]
      callbacks := [] }

/-- The parameter list of `GazeGridGeneratorWeb.generate_grid` after `self`
(generate_gaze.py line 218). -/
def generateGridParams : List String :=
  ["input_image_path", "output_dir", "sprite_output", "grid_size",
   "batch_size", "progress_callback"]

/-- How many of those parameters have defaults (`grid_size=30`,
`batch_size=8`, `progress_callback=None`). -/
def generateGridDefaults : ℕ := 3

/-- The positional arguments that the server's handler passes to
`generate_grid` through `asyncio.to_thread` (gaze_server.py lines 404-413). -/
def serverGenerateGridArgs : List String :=
  ["input_path", "output_dir", "sprite_output", "grid_size", "batch_size",
   "progress_callback", "quadrant_ready_callback"]

/-- Python's positional-call arity rule for a plain `def` (no `*args`):
the call succeeds iff the argument count is between the number of
non-defaulted parameters and the total parameter count. -/
def pyCallArityOk (params : List String) (numDefaults numArgs : ℕ) : Bool :=
  decide (params.length - numDefaults ≤ numArgs ∧ numArgs ≤ params.length)

/-- The call the handler actually performs: `generate_grid` invoked with the
server's 7 positional arguments.  Python checks the arity before any of the
body runs; with 7 arguments against 6 parameters the call raises `TypeError`
("takes from 4 to 7 positional arguments but 8 were given"). -/
def callGenerateGrid (grid_size : ℤ) (env : HandlerEnv) : Except PyError GridRunOut :=
  if pyCallArityOk generateGridParams generateGridDefaults serverGenerateGridArgs.length then
    generateGridBody grid_size env
  else
    .error .typeError

/-! ## Server data model (gaze_server.py) -/

/-- `CloudflareConfig` (lines 125-128). -/
structure CloudflareConfig where
  account_id : String
  api_token : String
  account_hash : String
deriving DecidableEq, Repr

/-- `R2Config` (lines 130-135). -/
structure R2Config where
  bucket : String
  account_id : String
  access_key_id : String
  secret_access_key : String
  public_url : String
deriving DecidableEq, Repr

/-- `GenerateRequest` (lines 137-143).  The pydantic model constrains
`grid_size` only to be an `int` (default 30) — there is no lower bound. -/
structure GenerateRequest where
  image_base64 : String
  session_id : String
  remove_background : Bool := false
  grid_size : ℤ := 30
  cloudflare : Option CloudflareConfig := none
  r2 : Option R2Config := none
deriving DecidableEq, Repr

/-- Quadrant status constants (lines 89-92).  The failure status has no
constant: the literal `"error"` is used directly (lines 379, 388). -/
def QUADRANT_PENDING : String := "pending"

def QUADRANT_STITCHING : String := "stitching"

def QUADRANT_UPLOADING : String := "uploading"

def QUADRANT_DONE : String := "done"

/-- `QUADRANT_FILES` (lines 95-98): file names by quadrant index; 0-3 are the
desktop sprites, 4-7 the mobile sprites. -/
def QUADRANT_FILES : List String :=
  ["q0.webp", "q1.webp", "q2.webp", "q3.webp",
   "q0_20.webp", "q1_20.webp", "q2_20.webp", "q3_20.webp"]

/-- One session's progress dict.  `quadrant` and `quadrants` model the
optional dict keys of the same names (`none` = key absent, as in the empty
dict that `progress_callback` falls back to). -/
structure SessionRecord where
  stage : String := ""
  current : ℤ := 0
  total : ℤ := 0
  message : String := ""
  quadrant : Option ℤ := none
  quadrants : Option (List String) := none
deriving DecidableEq, Repr

/-- The module-level `_SESSION_PROGRESS` dict (line 86), as an association
list from session id to record (no duplicate keys are ever created). -/
abbrev Sessions := List (String × SessionRecord)

def lookupSession (s : Sessions) (sid : String) : Option SessionRecord :=
  (s.find? fun p => p.1 == sid).map (·.2)

/-- `del _SESSION_PROGRESS[sid]`. -/
def removeSession (s : Sessions) (sid : String) : Sessions :=
  s.filter fun p => p.1 != sid

/-- `_SESSION_PROGRESS[sid] = record` (dict assignment; position in the
association list is irrelevant to lookups). -/
def setSession (s : Sessions) (sid : String) (v : SessionRecord) : Sessions :=
  (sid, v) :: removeSession s sid

/-- The record installed at the top of the handler (lines 291-297). -/
def initRecord (grid_size : ℤ) : SessionRecord :=
  { stage := "initializing"
    current := 0
    total := grid_size * grid_size
    message := "Starting generation..."
    quadrant := none
    quadrants := some (List.replicate 8 QUADRANT_PENDING) }

/-- The handler's `progress_callback` (lines 321-335).  It reads the current
record (an empty dict if the session is absent), overwrites the four scalar
fields, handles the special `stitching` stage, and unconditionally writes the
record back.  The source indexes `progress_data["quadrants"][current]` only
under `current < 8`; a negative `current` would wrap in Python, but no caller
passes one, and the model guards with `0 ≤ current` accordingly. -/
def progressUpdate (s : Sessions) (sid stage : String) (current total : ℤ)
    (message : String) : Sessions :=
  let pd := (lookupSession s sid).getD {}
  let pd := { pd with stage := stage, current := current, total := total,
                      message := message }
  let pd :=
    if stage == "stitching" && total == 8 then
      let pd := { pd with quadrant := some current }
      match pd.quadrants with
      | some qs =>
          if 0 ≤ current ∧ current < 8 then
            { pd with quadrants := some (qs.set current.toNat QUADRANT_STITCHING) }
          else pd
      | none => pd
    else pd
  setSession s sid pd

/-- The shared status-update pattern of `quadrant_ready_callback` and the two
upload coroutines (lines 345-347, 358-360, 370-372, 378-380, 387-389): if the
record has a `quadrants` key and the index is below 8, set that quadrant's
status and write the record back; otherwise leave the map unchanged. -/
def setQuadrantStatus (s : Sessions) (sid : String) (idx : ℕ) (st : String) : Sessions :=
  let pd := (lookupSession s sid).getD {}
  match pd.quadrants with
  | some qs => if idx < 8 then setSession s sid { pd with quadrants := some (qs.set idx st) } else s
  | none => s

/-- `quadrant_ready_callback` (lines 338-372): on a quadrant-ready
notification, R2 takes precedence over Cloudflare Images; with either target
the quadrant is marked `uploading` and an upload of
`QUADRANT_FILES[quadrant_idx]` is scheduled; with no target the quadrant is
marked `done` immediately.  Returns the updated map and the scheduled upload,
if any.  (`path` is the file path carried by the notification; it is
forwarded to the upload coroutine.) -/
def quadrantReadyCallback (req : GenerateRequest) (s : Sessions) (idx : ℕ)
    (path : String) : Sessions × Option (ℕ × String) :=
  if req.r2.isSome then
    (setQuadrantStatus s req.session_id idx QUADRANT_UPLOADING,
     some (idx, QUADRANT_FILES.getD idx path))
  else if req.cloudflare.isSome then
    (setQuadrantStatus s req.session_id idx QUADRANT_UPLOADING,
     some (idx, QUADRANT_FILES.getD idx path))
  else
    (setQuadrantStatus s req.session_id idx QUADRANT_DONE, none)

/-- The status effect of one finished upload coroutine
(`upload_quadrant_to_r2` lines 374-381, `upload_quadrant_to_cf` lines
383-390): its own quadrant becomes `done` on success or `"error"` on failure;
no other quadrant is touched and nothing is retried. -/
def uploadQuadrantOutcome (s : Sessions) (sid : String) (idx : ℕ)
    (success : Bool) : Sessions :=
  setQuadrantStatus s sid idx (if success then QUADRANT_DONE else "error")

/-- `metadata.json` content (generate_gaze.py lines 426-437). -/
structure Metadata where
  gridSize : ℤ
  quadrantSize : ℤ
  mobileGridSize : ℤ
  mobileQuadrantSize : ℤ
  imageWidth : ℕ
  imageHeight : ℕ
  hasAlpha : Bool
  format : String
  mode : String
  totalImages : ℤ
deriving DecidableEq, Repr

def mkMetadata (g : ℤ) (w h : ℕ) (alpha : Bool) : Metadata :=
  { gridSize := g
    quadrantSize := g / 2
    mobileGridSize := 20
    mobileQuadrantSize := 10
    imageWidth := w
    imageHeight := h
    hasAlpha := alpha
    format := "webp"
    mode := "quadrants"
    totalImages := g * g }

/-- Why a `HTTPException` was raised (its `detail` strings are elided). -/
inductive FailCause where
  /-- 400 `Invalid image data` (line 314) -/
  | invalidImage
  /-- 500 `Failed to load models` (line 398) -/
  | loadFailure
  /-- 500 `Generation failed` (line 420), carrying the worker exception -/
  | genFailure (e : PyError)
  /-- 500 `Generation failed: no metadata produced` (line 462) -/
  | noMetadata
deriving DecidableEq, Repr

structure HTTPError where
  status : ℕ
  cause : FailCause
deriving DecidableEq, Repr

/-- The success JSON of the handler (lines 469-476). -/
structure GenerateResponseJson where
  session_id : String
  output_dir : String
  metadata : Metadata
  status : String
  r2_uploaded : Bool
  cdn_uploaded : Bool
deriving DecidableEq, Repr

/-- Everything observable at the end of one handler run. -/
structure HandlerResult where
  response : Except HTTPError GenerateResponseJson
  sessions : Sessions
  /-- quadrant-ready invocations observed by the handler's callback -/
  callbacks : List (ℕ × String)
  /-- uploads scheduled by `quadrant_ready_callback` (index, file name) -/
  scheduledUploads : List (ℕ × String)
deriving Repr

/-- The tail of the handler after the worker thread finishes (lines 422-476):
await all scheduled uploads (aggregating failures without raising), perform
the final source-image/metadata uploads if a target is configured
(`uploaded_to_r2` is set from the configuration alone, lines 444-450), update
the progress record to `complete` (line 457), then require `metadata.json` to
exist — raising 500 *without* removing the session record when it does not
(lines 460-462) — and otherwise return the `complete` response. -/
def finalizePhase (req : GenerateRequest) (env : HandlerEnv) (s : Sessions)
    (uploads : List (ℕ × String)) (metadataExists : Bool) :
    Except HTTPError GenerateResponseJson × Sessions :=
  let sid := req.session_id
  let s := if uploads.isEmpty then s
    else progressUpdate s sid "uploading" 0 (uploads.length : ℤ) "Finishing CDN uploads..."
  let uploaded_to_r2 := req.r2.isSome
  let uploaded_to_cdn := req.r2.isNone && req.cloudflare.isSome
  let s := progressUpdate s sid "complete" (req.grid_size * req.grid_size)
    (req.grid_size * req.grid_size) "Generation complete!"
  if metadataExists = false then
    (.error { status := 500, cause := .noMetadata }, s)
  else
    (.ok { session_id := sid
           output_dir := "jobs/" ++ sid ++ "/gaze_output"
           metadata := mkMetadata req.grid_size env.imgW env.imgH env.hasAlpha
           status := "complete"
           r2_uploaded := uploaded_to_r2
           cdn_uploaded := uploaded_to_cdn || uploaded_to_r2 }, s)

/-- The POST `/generate` handler (lines 285-476).  Steps, in source order:
install the initial progress record; decode the image (fatal 400, record
removed); load the models (fatal 500, record removed); call
`generate_grid` with the server's 7 positional arguments (any exception is
fatal 500, record removed); then fold the observed quadrant-ready callbacks
through `quadrant_ready_callback`, apply each scheduled upload's outcome, and
finalize.  Intra-run progress messages (`preparing`/`generating`/`saving`)
only rewrite the scalar fields of the record and are not tracked further. -/
def generateHandler (req : GenerateRequest) (env : HandlerEnv) (s0 : Sessions) :
    HandlerResult :=
  let sid := req.session_id
  let s1 := setSession s0 sid (initRecord req.grid_size)
  if env.decodeOk = false then
    { response := .error { status := 400, cause := .invalidImage }
      sessions := removeSession s1 sid
      callbacks := []
      scheduledUploads := [] }
  else
    let s2 := progressUpdate s1 sid "loading" 0 100 "Loading models..."
    if env.loadOk = false then
      { response := .error { status := 500, cause := .loadFailure }
        sessions := removeSession s2 sid
        callbacks := []
        scheduledUploads := [] }
    else
      let s3 := progressUpdate s2 sid "preparing" 0 (req.grid_size * req.grid_size)
        "Preparing source image..."
      match callGenerateGrid req.grid_size env with
      | .error e =>
          { response := .error { status := 500, cause := .genFailure e }
            sessions := removeSession s3 sid
            callbacks := []
            scheduledUploads := [] }
      | .ok run =>
          let folded := run.callbacks.foldl
            (fun (acc : Sessions × List (ℕ × String)) c =>
              let r := quadrantReadyCallback req acc.1 c.1 c.2
              (r.1, acc.2 ++ r.2.toList))
            (s3, [])
          let s4 := folded.2.foldl
            (fun s u => uploadQuadrantOutcome s sid u.1 (env.uploadOk u.1))
            folded.1
          let fin := finalizePhase req env s4 folded.2
            (decide (FileEvent.metadataFile ∈ run.files))
          { response := fin.1
            sessions := fin.2
            callbacks := run.callbacks
            scheduledUploads := folded.2 }

/-- GET `/progress/{session_id}` (lines 277-282): the stored record, or the
synthetic not-found record. -/
def sessionNotFoundRecord : SessionRecord :=
  { stage := "unknown", current := 0, total := 0, message := "Session not found" }

def getProgress (s : Sessions) (sid : String) : SessionRecord :=
  (lookupSession s sid).getD sessionNotFoundRecord

/-! ## Concrete request fixtures -/

/-- All external effects succeed; 512×512 RGB cells. -/
def envAllOk : HandlerEnv :=
  { decodeOk := true, loadOk := true, faceOk := true,
    branch := fun _ => true, uploadOk := fun _ => true,
    imgW := 512, imgH := 512, hasAlpha := false }

def envDecodeFail : HandlerEnv :=
  { envAllOk with decodeOk := false }

def envLoadFail : HandlerEnv :=
  { envAllOk with loadOk := false }

/-- A decodable request with gridSize 4 and no storage target. -/
def reqNoStorage : GenerateRequest :=
  { image_base64 := "aGVsbG8=", session_id := "sess-1", grid_size := 4 }

def sampleR2 : R2Config :=
  { bucket := "bucket", account_id := "acct", access_key_id := "key",
    secret_access_key := "secret", public_url := "https://cdn.example" }

/-- The same request with an R2 storage target configured. -/
def reqWithR2 : GenerateRequest :=
  { image_base64 := "aGVsbG8=", session_id := "sess-2", grid_size := 4,
    r2 := some sampleR2 }

/-- A request with `grid_size = 1` — accepted by the request model, which
puts no lower bound on `grid_size` (gaze_server.py line 141). -/
def reqGridOne : GenerateRequest :=
  { image_base64 := "aGVsbG8=", session_id := "sess-1", grid_size := 1 }

/-! ## Lemmas on the rounding model -/

theorem pyRoundInt_intCast (n : ℤ) : pyRoundInt (n : ℚ) = n := by
  rw [pyRoundInt, Int.floor_intCast]
  norm_num

theorem pyRoundInt_le (q : ℚ) : (pyRoundInt q : ℚ) ≤ q + 1/2 := by
  have hfl : (⌊q⌋ : ℚ) ≤ q := Int.floor_le q
  have hlt : q < ⌊q⌋ + 1 := Int.lt_floor_add_one q
  rw [pyRoundInt]
  split_ifs <;> push_cast <;> linarith

theorem le_pyRoundInt (q : ℚ) : q - 1/2 ≤ (pyRoundInt q : ℚ) := by
  have hfl : (⌊q⌋ : ℚ) ≤ q := Int.floor_le q
  have hlt : q < ⌊q⌋ + 1 := Int.lt_floor_add_one q
  rw [pyRoundInt]
  split_ifs with h1 h2 <;> push_cast <;> linarith

theorem pyRoundInt_le_of_le {q : ℚ} {B : ℤ} (h : q ≤ (B : ℚ)) : pyRoundInt q ≤ B := by
  have hfl : ⌊q⌋ ≤ B := by
    have hm := Int.floor_mono h
    rwa [Int.floor_intCast] at hm
  have key : ¬(q - ⌊q⌋ < 1/2) → ⌊q⌋ + 1 ≤ B := by
    intro hh
    have hq : (⌊q⌋ : ℚ) + 1/2 ≤ q := by linarith
    have hlt : (⌊q⌋ : ℚ) < (B : ℚ) := by linarith
    have hlt' : ⌊q⌋ < B := by exact_mod_cast hlt
    omega
  rw [pyRoundInt]
  split_ifs with h1 h2 h3
  · exact hfl
  · exact key h1
  · exact hfl
  · exact key h1

theorem le_pyRoundInt_of_le {q : ℚ} {A : ℤ} (h : (A : ℚ) ≤ q) : A ≤ pyRoundInt q := by
  have hfl : A ≤ ⌊q⌋ := Int.le_floor.mpr h
  rw [pyRoundInt]
  split_ifs <;> omega

/-! ## Generic list lemmas

Both the parameter builder (nested `for y ... for x ...` loops, lines 236-252
of generate_gaze.py) and the two compositor traversals (lines 333-351 and
392-403) build lists by a double loop; these lemmas describe the element at
flat position `i * innerLength + j` of such a list. -/

theorem flatMap_map_length {α β γ : Type} (l₁ : List α) (l₂ : List β) (f : α → β → γ) :
    (l₁.flatMap fun a => l₂.map (f a)).length = l₁.length * l₂.length := by
  induction l₁ with
  | nil => simp
  | cons a l ih => simp [ih, Nat.succ_mul, Nat.add_comm]

theorem flatMap_map_getElem? {α β γ : Type} (l₁ : List α) (l₂ : List β) (f : α → β → γ)
    (i j : ℕ) (hi : i < l₁.length) (hj : j < l₂.length) :
    (l₁.flatMap fun a => l₂.map (f a))[i * l₂.length + j]? =
      some (f (l₁.get ⟨i, hi⟩) (l₂.get ⟨j, hj⟩)) := by
  induction l₁ generalizing i with
  | nil => simp at hi
  | cons a l ih =>
    cases i with
    | zero =>
      simp only [List.flatMap_cons, Nat.zero_mul, Nat.zero_add]
      rw [List.getElem?_append_left (by simpa using hj)]
      simp [List.getElem?_map, List.getElem?_eq_getElem hj, List.get]
    | succ i =>
      have hi' : i < l.length := by simpa using hi
      have harith : (i + 1) * l₂.length + j =
          (l₂.map (f a)).length + (i * l₂.length + j) := by
        simp [Nat.succ_mul]; ring
      simp only [List.flatMap_cons, harith]
      rw [List.getElem?_append_right (Nat.le_add_right _ _)]
      simpa using ih i hi'

theorem mem_quadrantCells {half rs cs : ℕ} {cell : ℕ × ℕ} :
    cell ∈ quadrantCells half rs cs ↔
      rs ≤ cell.1 ∧ cell.1 < rs + half ∧ cs ≤ cell.2 ∧ cell.2 < cs + half := by
  obtain ⟨r, c⟩ := cell
  simp only [quadrantCells, Finset.mem_image, Finset.mem_product, Finset.mem_range,
    Prod.mk.injEq, Prod.exists]
  constructor
  · rintro ⟨a, b, ⟨ha, hb⟩, rfl, rfl⟩
    omega
  · rintro ⟨h1, h2, h3, h4⟩
    exact ⟨r - rs, c - cs, ⟨by omega, by omega⟩, by omega, by omega⟩

/-! ## Derived rounding lemmas -/

theorem pyRound2_intCast (n : ℤ) : pyRound2 (n : ℚ) = n := by
  rw [pyRound2]
  have h : (n : ℚ) * 100 = ((n * 100 : ℤ) : ℚ) := by push_cast; ring
  rw [h, pyRoundInt_intCast]
  push_cast
  rw [mul_div_assoc]
  norm_num

theorem pyRound2_le_of_le {q : ℚ} {B : ℤ} (h : q ≤ (B : ℚ)) : pyRound2 q ≤ B := by
  rw [pyRound2, div_le_iff₀ (by norm_num : (0:ℚ) < 100)]
  have h100 : q * 100 ≤ ((B * 100 : ℤ) : ℚ) := by push_cast; linarith
  have h2 := pyRoundInt_le_of_le h100
  exact_mod_cast h2

theorem le_pyRound2_of_le {q : ℚ} {A : ℤ} (h : (A : ℚ) ≤ q) : (A : ℚ) ≤ pyRound2 q := by
  rw [pyRound2, le_div_iff₀ (by norm_num : (0:ℚ) < 100)]
  have h100 : ((A * 100 : ℤ) : ℚ) ≤ q * 100 := by push_cast; linarith
  have h2 := le_pyRoundInt_of_le h100
  exact_mod_cast h2

theorem map_range_getElem? {β : Type} (f : ℕ → β) {t i : ℕ} (h : i < t) :
    ((List.range t).map f)[i]? = some (f i) := by
  rw [List.getElem?_map, List.getElem?_range h]
  rfl

theorem buildValues_length (g : ℕ) : (buildValues g).length = g := by
  simp [buildValues]

theorem buildValues_getElem? {g i : ℕ} (hi : i < g) :
    (buildValues g)[i]? = some (pyRound2 (-15 + (i : ℚ) * (30 / ((g : ℚ) - 1)))) := by
  simp [buildValues, List.getElem?_range hi]

/-- Claim C3: for every `gridSize ≥ 2` the parameter builder produces exactly
`gridSize²` parameters in row-major order (`y` outer, `x` inner) over the
value list `v_i = round(-15 + i * (30 / (gridSize - 1)), 2)`; each parameter
satisfies `pupil_x = x`, `pupil_y = -y`, `head_pitch = y/2`,
`head_yaw = -x/2`, `eyebrow = max(0, -y)`; and the minimum and maximum values
of the value list are `-15` and `15`. -/
theorem c3_parameter_builder (g : ℕ) (hg : 2 ≤ g) :
    (buildParams g).length = g * g ∧
    (∀ i, i < g → (buildValues g)[i]? =
      some (pyRound2 (-15 + (i : ℚ) * (30 / ((g : ℚ) - 1))))) ∧
    (∀ i j, i < g → j < g →
      (buildParams g)[i * g + j]? =
        some (mkGazeParam ((buildValues g).getD j 0) ((buildValues g).getD i 0))) ∧
    (∀ p ∈ buildParams g,
      p.pupil_x = p.x ∧ p.pupil_y = -p.y ∧ p.head_pitch = p.y / 2 ∧
      p.head_yaw = -(p.x / 2) ∧ p.eyebrow = max 0 (-p.y)) ∧
    (-15 : ℚ) ∈ buildValues g ∧ (15 : ℚ) ∈ buildValues g ∧
    ∀ v ∈ buildValues g, -15 ≤ v ∧ v ≤ 15 := by
  have hg1 : (1 : ℚ) ≤ (g : ℚ) - 1 := by
    have : (2 : ℚ) ≤ (g : ℚ) := by exact_mod_cast hg
    linarith
  have hc0 : ((g : ℚ) - 1) ≠ 0 := by linarith
  refine ⟨?_, ?_, ?_, ?_, ?_, ?_, ?_⟩
  · rw [buildParams, flatMap_map_length, buildValues_length]
  · intro i hi
    exact buildValues_getElem? hi
  · intro i j hi hj
    have hi' : i < (buildValues g).length := by rwa [buildValues_length]
    have hj' : j < (buildValues g).length := by rwa [buildValues_length]
    have hidx : i * g + j = i * (buildValues g).length + j := by
      rw [buildValues_length]
    rw [buildParams, hidx,
      flatMap_map_getElem? (buildValues g) (buildValues g) (fun y x => mkGazeParam x y) i j hi' hj']
    have hgi : (buildValues g).getD i 0 = (buildValues g).get ⟨i, hi'⟩ := by
      simp [List.getElem?_eq_getElem hi', List.get_eq_getElem]
    have hgj : (buildValues g).getD j 0 = (buildValues g).get ⟨j, hj'⟩ := by
      simp [List.getElem?_eq_getElem hj', List.get_eq_getElem]
    rw [hgi, hgj]
  · intro p hp
    rw [buildParams, List.mem_flatMap] at hp
    obtain ⟨y, _, hp⟩ := hp
    rw [List.mem_map] at hp
    obtain ⟨x, _, rfl⟩ := hp
    exact ⟨rfl, by simp [mkGazeParam], rfl, by simp [mkGazeParam], by simp [mkGazeParam]⟩
  · rw [buildValues, List.mem_map]
    refine ⟨0, List.mem_range.mpr (by omega), ?_⟩
    have h0 : (-15 : ℚ) + (0 : ℕ) * (30 / ((g : ℚ) - 1)) = ((-15 : ℤ) : ℚ) := by
      push_cast; ring
    rw [h0, pyRound2_intCast]
    norm_num
  · rw [buildValues, List.mem_map]
    refine ⟨g - 1, List.mem_range.mpr (by omega), ?_⟩
    have hcast : ((g - 1 : ℕ) : ℚ) = (g : ℚ) - 1 := by
      have h1 : 1 ≤ g := by omega
      push_cast [h1]
      ring
    have h15 : (-15 : ℚ) + ((g - 1 : ℕ) : ℚ) * (30 / ((g : ℚ) - 1)) = ((15 : ℤ) : ℚ) := by
      rw [hcast]
      field_simp
      ring
    rw [h15, pyRound2_intCast]
    norm_num
  · intro v hv
    rw [buildValues, List.mem_map] at hv
    obtain ⟨i, hi, rfl⟩ := hv
    rw [List.mem_range] at hi
    have histep : (0 : ℚ) ≤ (i : ℚ) * (30 / ((g : ℚ) - 1)) := by
      apply mul_nonneg (by positivity)
      positivity
    have hiub : (i : ℚ) * (30 / ((g : ℚ) - 1)) ≤ 30 := by
      have hile : (i : ℚ) ≤ (g : ℚ) - 1 := by
        have : (i : ℚ) + 1 ≤ (g : ℚ) := by exact_mod_cast hi
        linarith
      have hmul : (i : ℚ) * (30 / ((g : ℚ) - 1)) ≤
          ((g : ℚ) - 1) * (30 / ((g : ℚ) - 1)) := by
        apply mul_le_mul_of_nonneg_right hile
        positivity
      calc (i : ℚ) * (30 / ((g : ℚ) - 1)) ≤ ((g : ℚ) - 1) * (30 / ((g : ℚ) - 1)) := hmul
        _ = 30 := by field_simp
    constructor
    · have := le_pyRound2_of_le (A := -15)
        (q := -15 + (i : ℚ) * (30 / ((g : ℚ) - 1))) (by push_cast; linarith)
      exact_mod_cast this
    · have := pyRound2_le_of_le (B := 15)
        (q := -15 + (i : ℚ) * (30 / ((g : ℚ) - 1))) (by push_cast; linarith)
      exact_mod_cast this

/-- Witness for C3 at the concrete grid size 2. -/
theorem c3_parameter_builder_witness :
    (buildParams 2).length = 2 * 2 ∧
    (-15 : ℚ) ∈ buildValues 2 ∧ (15 : ℚ) ∈ buildValues 2 := by
  have h := c3_parameter_builder 2 (by norm_num)
  exact ⟨h.1, h.2.2.2.2.1, h.2.2.2.2.2.1⟩

/-! ## Quadrant partition (C4) -/

theorem quadrantCells_disjoint {half rs₁ cs₁ rs₂ cs₂ : ℕ}
    (h : rs₁ + half ≤ rs₂ ∨ rs₂ + half ≤ rs₁ ∨ cs₁ + half ≤ cs₂ ∨ cs₂ + half ≤ cs₁) :
    Disjoint (quadrantCells half rs₁ cs₁) (quadrantCells half rs₂ cs₂) := by
  rw [Finset.disjoint_left]
  intro a h₁ h₂
  rw [mem_quadrantCells] at h₁ h₂
  omega

/-- Claim C4, amended: the four quadrants `(rowStart, colStart) ∈ {0, half}²`
with `half = gridSize div 2` always have pairwise disjoint cell ranges, and
for every *even* gridSize their union covers every cell of the
`gridSize × gridSize` grid exactly once.  (For odd grid sizes the last row and
column of the grid are covered by no quadrant, see `c4_counterexample`.) -/
theorem c4_quadrant_partition (g : ℕ) :
    ((quadrantsFor (g / 2)).Pairwise fun q₁ q₂ =>
        Disjoint (quadrantCells (g / 2) q₁.2.1 q₁.2.2)
                 (quadrantCells (g / 2) q₂.2.1 q₂.2.2)) ∧
    (g % 2 = 0 →
      (∀ q ∈ quadrantsFor (g / 2), quadrantCells (g / 2) q.2.1 q.2.2 ⊆ gridCells g) ∧
      ∀ cell ∈ gridCells g,
        (quadrantsFor (g / 2)).countP
          (fun q => decide (cell ∈ quadrantCells (g / 2) q.2.1 q.2.2)) = 1) := by
  constructor
  · rw [quadrantsFor]
    refine List.Pairwise.cons ?_ (List.Pairwise.cons ?_
      (List.Pairwise.cons ?_ (List.Pairwise.cons ?_ List.Pairwise.nil)))
    all_goals intro q hq
    all_goals fin_cases hq
    all_goals apply quadrantCells_disjoint
    all_goals simp
  · intro heven
    constructor
    · intro q hq
      fin_cases hq
      all_goals intro cell hcell
      all_goals rw [mem_quadrantCells] at hcell
      all_goals obtain ⟨r, c⟩ := cell
      all_goals simp only [gridCells, Finset.mem_product, Finset.mem_range]
      all_goals dsimp only at hcell
      all_goals omega
    · rintro ⟨r, c⟩ hcell
      simp only [gridCells, Finset.mem_product, Finset.mem_range] at hcell
      simp only [quadrantsFor, List.countP_cons, List.countP_nil,
        mem_quadrantCells, decide_eq_true_eq]
      split_ifs <;> omega

/-- Counterexample for C4 as stated: at gridSize 3 the quadrant ranges miss
cell `(2, 2)` entirely (it lies in no quadrant), so the union does not cover
the full grid. -/
theorem c4_counterexample :
    (2, 2) ∈ gridCells 3 ∧
    (quadrantsFor (3 / 2)).countP
      (fun q => decide ((2, 2) ∈ quadrantCells (3 / 2) q.2.1 q.2.2)) = 0 := by
  constructor
  · decide
  · decide

/-- Witness for C4 at the concrete even grid size 4. -/
theorem c4_quadrant_partition_witness :
    ((quadrantsFor (4 / 2)).Pairwise fun q₁ q₂ =>
        Disjoint (quadrantCells (4 / 2) q₁.2.1 q₁.2.2)
                 (quadrantCells (4 / 2) q₂.2.1 q₂.2.2)) ∧
    ∀ cell ∈ gridCells 4,
      (quadrantsFor (4 / 2)).countP
        (fun q => decide (cell ∈ quadrantCells (4 / 2) q.2.1 q.2.2)) = 1 := by
  have h := c4_quadrant_partition 4
  exact ⟨h.1, (h.2 (by norm_num)).2⟩

/-! ## Index map subsampling (C5) -/

theorem indexMap_adjacent_lt {g t : ℕ} (ht : 2 ≤ t) (htg : t < g) (i : ℕ) :
    pyRoundInt ((i : ℚ) * ((g : ℚ) - 1) / ((t : ℚ) - 1)) <
      pyRoundInt (((i + 1 : ℕ) : ℚ) * ((g : ℚ) - 1) / ((t : ℚ) - 1)) := by
  have hb : (0 : ℚ) < (t : ℚ) - 1 := by
    have : (2 : ℚ) ≤ (t : ℚ) := by exact_mod_cast ht
    linarith
  have hba : (t : ℚ) - 1 < (g : ℚ) - 1 := by
    have : (t : ℚ) < (g : ℚ) := by exact_mod_cast htg
    linarith
  have hr : 1 < ((g : ℚ) - 1) / ((t : ℚ) - 1) := (one_lt_div hb).mpr hba
  have hgap : ((i + 1 : ℕ) : ℚ) * ((g : ℚ) - 1) / ((t : ℚ) - 1)
      = (i : ℚ) * ((g : ℚ) - 1) / ((t : ℚ) - 1) + ((g : ℚ) - 1) / ((t : ℚ) - 1) := by
    push_cast
    field_simp
    ring
  have h₁ := pyRoundInt_le ((i : ℚ) * ((g : ℚ) - 1) / ((t : ℚ) - 1))
  have h₂ := le_pyRoundInt
    ((i : ℚ) * ((g : ℚ) - 1) / ((t : ℚ) - 1) + ((g : ℚ) - 1) / ((t : ℚ) - 1))
  have hq : (pyRoundInt ((i : ℚ) * ((g : ℚ) - 1) / ((t : ℚ) - 1)) : ℚ)
      < (pyRoundInt ((i : ℚ) * ((g : ℚ) - 1) / ((t : ℚ) - 1)
          + ((g : ℚ) - 1) / ((t : ℚ) - 1)) : ℚ) := by
    linarith
  rw [← hgap] at hq
  exact_mod_cast hq

/-- Claim C5: the subsampling index map is the identity when the target size
equals the grid size; and for every target size with
`2 ≤ targetSize < gridSize` it is strictly increasing with first value 0 and
last value `gridSize - 1`. -/
theorem c5_index_map_subsampling (g t : ℕ) :
    (t = g →
      (indexMapFor g t).length = g ∧
      ∀ i, i < g → (indexMapFor g t)[i]? = some (i : ℤ)) ∧
    (2 ≤ t → t < g →
      List.Chain' (· < ·) (indexMapFor g t) ∧
      (indexMapFor g t)[0]? = some 0 ∧
      (indexMapFor g t)[t - 1]? = some ((g : ℤ) - 1)) := by
  constructor
  · rintro rfl
    constructor
    · simp [indexMapFor]
    · intro i hi
      simp [indexMapFor, List.getElem?_range hi, Int.ofNat_eq_coe]
  · intro ht htg
    have hne : ¬(t = g) := by omega
    have hb : (0 : ℚ) < (t : ℚ) - 1 := by
      have : (2 : ℚ) ≤ (t : ℚ) := by exact_mod_cast ht
      linarith
    rw [indexMapFor, if_neg hne]
    refine ⟨?_, ?_, ?_⟩
    · rw [List.chain'_iff_get]
      intro i hlen
      simp only [List.length_map, List.length_range] at hlen
      simp only [List.get_eq_getElem, List.getElem_map, List.getElem_range]
      exact indexMap_adjacent_lt ht htg i
    · have h0 : 0 < t := by omega
      rw [map_range_getElem? _ h0]
      have hz : ((0 : ℕ) : ℚ) * ((g : ℚ) - 1) / ((t : ℚ) - 1) = ((0 : ℤ) : ℚ) := by
        push_cast
        ring
      rw [hz, pyRoundInt_intCast]
    · have hlt : t - 1 < t := by omega
      rw [map_range_getElem? _ hlt]
      have hcast : ((t - 1 : ℕ) : ℚ) = (t : ℚ) - 1 := by
        have h1 : 1 ≤ t := by omega
        push_cast [h1]
        ring
      have hv : ((t - 1 : ℕ) : ℚ) * ((g : ℚ) - 1) / ((t : ℚ) - 1) = (((g : ℤ) - 1 : ℤ) : ℚ) := by
        rw [hcast]
        push_cast
        field_simp
      rw [hv, pyRoundInt_intCast]

/-- Witness for C5: identity branch at grid size 5, subsampling branch at
grid size 5 with target size 3. -/
theorem c5_index_map_subsampling_witness :
    ((indexMapFor 5 5).length = 5 ∧
      ∀ i : ℕ, i < 5 → (indexMapFor 5 5)[i]? = some (i : ℤ)) ∧
    (List.Chain' (· < ·) (indexMapFor 5 3) ∧
      (indexMapFor 5 3)[0]? = some 0 ∧
      (indexMapFor 5 3)[3 - 1]? = some ((5 : ℤ) - 1)) :=
  ⟨(c5_index_map_subsampling 5 5).1 rfl,
   (c5_index_map_subsampling 5 3).2 (by norm_num) (by norm_num)⟩

/-! ## FFmpeg path vs PIL fallback (C6) -/

/-- Claim C6: the PIL fallback and the FFmpeg tiling path visit cells in the
same 2-D order — for every quadrant, index map and local cell
`(local_row, local_col)`, the frame at position `local_row * half + local_col`
of the FFmpeg frame sequence holds exactly the source cell that the PIL
fallback blits at canvas position `(local_row * imgH, local_col * imgW)`, and
stripping the canvas positions from the PIL blit sequence yields the FFmpeg
frame sequence. -/
theorem c6_ffmpeg_pil_same_order {α : Type} (grid : ℤ × ℤ → Option α)
    (indexMap : List ℤ) (half rs cs imgH imgW lr lc : ℕ)
    (hlr : lr < half) (hlc : lc < half) :
    (ffmpegFrameCells grid indexMap half rs cs)[lr * half + lc]? =
      some (grid (idxAt indexMap (rs + lr), idxAt indexMap (cs + lc))) ∧
    (pilBlits grid indexMap half rs cs imgH imgW)[lr * half + lc]? =
      some ((lr * imgH, lc * imgW),
        grid (idxAt indexMap (rs + lr), idxAt indexMap (cs + lc))) ∧
    (pilBlits grid indexMap half rs cs imgH imgW).map Prod.snd =
      ffmpegFrameCells grid indexMap half rs cs := by
  have hlr' : lr < (List.range half).length := by simpa using hlr
  have hlc' : lc < (List.range half).length := by simpa using hlc
  have hidx : lr * half + lc = lr * (List.range half).length + lc := by
    simp
  refine ⟨?_, ?_, ?_⟩
  · rw [ffmpegFrameCells, hidx,
      flatMap_map_getElem? (List.range half) (List.range half)
        (fun local_row local_col =>
          grid (idxAt indexMap (rs + local_row), idxAt indexMap (cs + local_col)))
        lr lc hlr' hlc']
    simp
  · rw [pilBlits, hidx,
      flatMap_map_getElem? (List.range half) (List.range half)
        (fun local_row local_col =>
          ((local_row * imgH, local_col * imgW),
            grid (idxAt indexMap (rs + local_row), idxAt indexMap (cs + local_col))))
        lr lc hlr' hlc']
    simp
  · rw [pilBlits, ffmpegFrameCells, List.map_flatMap]
    simp [List.map_map, Function.comp_def]

/-- Witness for C6 at a concrete quadrant (rowStart 2, colStart 0, half 2)
with the concrete index map `[0, 2, 4, 5]` on a fully populated grid. -/
theorem c6_ffmpeg_pil_same_order_witness :
    (ffmpegFrameCells (fun p => some (10 * p.1 + p.2)) [0, 2, 4, 5] 2 2 0)[1 * 2 + 1]? =
      some (some (10 * idxAt [0, 2, 4, 5] (2 + 1) + idxAt [0, 2, 4, 5] (0 + 1))) ∧
    (pilBlits (fun p => some (10 * p.1 + p.2)) [0, 2, 4, 5] 2 2 0 3 7)[1 * 2 + 1]? =
      some ((1 * 3, 1 * 7),
        some (10 * idxAt [0, 2, 4, 5] (2 + 1) + idxAt [0, 2, 4, 5] (0 + 1))) ∧
    (pilBlits (fun p => some (10 * p.1 + p.2)) [0, 2, 4, 5] 2 2 0 3 7).map Prod.snd =
      ffmpegFrameCells (fun p => some (10 * p.1 + p.2)) [0, 2, 4, 5] 2 2 0 :=
  c6_ffmpeg_pil_same_order (fun p => some (10 * p.1 + p.2)) [0, 2, 4, 5] 2 2 0 3 7 1 1
    (by norm_num) (by norm_num)

/-! ## Metadata is written last (C9) -/

/-- Claim C9: within one `generate_grid` run, `metadata.json` is written only
after all 8 quadrant sprite files (4 primary + 4 mobile) have been written to
the local output directory — for every FFmpeg/PIL branch choice, and
independently of uploads (the `generate_grid` body performs none; `files`
has no upload events at all). -/
theorem c9_metadata_after_quadrants (g : ℤ) (env : HandlerEnv)
    (hface : env.faceOk = true) (hg : 2 ≤ g) :
    ∃ out : GridRunOut,
      generateGridBody g env = .ok out ∧
      out.files = quadrantWrites "" env.branch ++ quadrantWrites "_20" env.branch
        ++ [FileEvent.metadataFile] ∧
      FileEvent.metadataFile ∉
        quadrantWrites "" env.branch ++ quadrantWrites "_20" env.branch ∧
      out.callbacks = [] ∧
      ∀ n ∈ spriteFileNames,
        FileEvent.quadrantFile n (env.branch n) ∈
          quadrantWrites "" env.branch ++ quadrantWrites "_20" env.branch := by
  have h1 : ¬(g = 1) := by omega
  have h0 : ¬(g ≤ 0) := by omega
  refine ⟨{ files := quadrantWrites "" env.branch ++ quadrantWrites "_20" env.branch
              ++ [FileEvent.metadataFile]
            callbacks := [] }, ?_, rfl, ?_, rfl, ?_⟩
  · rw [generateGridBody, hface]
    simp [h1, h0]
  · intro hmem
    simp [quadrantWrites] at hmem
  · intro n hn
    fin_cases hn
    all_goals simp [quadrantWrites]

/-- Witness for C9 at grid size 4 (mixed FFmpeg/PIL branches). -/
theorem c9_metadata_after_quadrants_witness :
    ∃ out : GridRunOut,
      generateGridBody 4
        { decodeOk := true, loadOk := true, faceOk := true,
          branch := fun n => n == "q2.webp", uploadOk := fun _ => true,
          imgW := 512, imgH := 512, hasAlpha := false } = .ok out ∧
      out.files =
        quadrantWrites "" (fun n => n == "q2.webp")
          ++ quadrantWrites "_20" (fun n => n == "q2.webp")
          ++ [FileEvent.metadataFile] ∧
      FileEvent.metadataFile ∉
        quadrantWrites "" (fun n => n == "q2.webp")
          ++ quadrantWrites "_20" (fun n => n == "q2.webp") ∧
      out.callbacks = [] ∧
      ∀ n ∈ spriteFileNames,
        FileEvent.quadrantFile n ((fun n => n == "q2.webp") n) ∈
          quadrantWrites "" (fun n => n == "q2.webp")
            ++ quadrantWrites "_20" (fun n => n == "q2.webp") :=
  c9_metadata_after_quadrants 4
    { decodeOk := true, loadOk := true, faceOk := true,
      branch := fun n => n == "q2.webp", uploadOk := fun _ => true,
      imgW := 512, imgH := 512, hasAlpha := false }
    rfl (by norm_num)

/-! ## Session-map lemmas -/

theorem lookupSession_remove (s : Sessions) (sid : String) :
    lookupSession (removeSession s sid) sid = none := by
  rw [lookupSession, removeSession]
  have h : (s.filter fun p => p.1 != sid).find? (fun p => p.1 == sid) = none := by
    rw [List.find?_eq_none]
    intro x hx
    have h2 := (List.mem_filter.mp hx).2
    rw [bne_iff_ne] at h2
    simp [h2]
  rw [h]
  rfl

theorem lookupSession_set (s : Sessions) (sid : String) (v : SessionRecord) :
    lookupSession (setSession s sid v) sid = some v := by
  rw [lookupSession, setSession, List.find?_cons_of_pos _ (by simp)]
  rfl

theorem callGenerateGrid_typeError (gs : ℤ) (env : HandlerEnv) :
    callGenerateGrid gs env = .error .typeError := rfl

/-! ## Claim theorems about the handler -/

/-- Claim C1 (code-bug evidence): `generate_grid` as defined in
src/generate_gaze.py accepts 6 positional parameters after `self` and raises
no quadrant-ready notification, while the server's handler passes 7
positional arguments (including `quadrant_ready_callback`).  The call
therefore fails Python's arity check and raises `TypeError` before the body
runs: the handler answers 500 and `quadrant_ready_callback` is invoked zero
times — not once per quadrant with `(quadrantIndex, filePath)` as claimed.
Even a well-formed direct invocation of the body (as the CLI performs)
raises no notification. -/
theorem c1_no_quadrant_notifications :
    pyCallArityOk generateGridParams generateGridDefaults
      serverGenerateGridArgs.length = false ∧
    (∃ out : GridRunOut, generateGridBody 4 envAllOk = .ok out ∧ out.callbacks = []) ∧
    (generateHandler reqWithR2 envAllOk []).callbacks = [] ∧
    (generateHandler reqWithR2 envAllOk []).response =
      .error { status := 500, cause := .genFailure .typeError } :=
  ⟨rfl, ⟨_, rfl, rfl⟩, rfl, rfl⟩

/-- Claim C2 (code-bug evidence): the end-to-end scenario (decodable image,
gridSize 4, no background removal, no storage target) does not reach the
`complete` response: the handler's `generate_grid` call raises `TypeError`
(7 positional arguments against 6 parameters), so POST /generate answers
500 and the session record is deleted. -/
theorem c2_endtoend_returns_500 :
    (generateHandler reqNoStorage envAllOk []).response =
      .error { status := 500, cause := .genFailure .typeError } ∧
    lookupSession (generateHandler reqNoStorage envAllOk []).sessions
      reqNoStorage.session_id = none :=
  ⟨rfl, rfl⟩

/-- Claim C7 (amended): the invalid-image, model-load-failure and
generation-failure paths of POST /generate each remove the session's progress
record before raising, so a subsequent GET /progress reports the synthetic
not-found record; the missing-metadata path, however, raises its 500 with the
session record still present (gaze_server.py lines 460-462 contain no `del`). -/
theorem c7_fatal_paths_cleanup (req : GenerateRequest) (env : HandlerEnv) :
    (env.decodeOk = false →
      (generateHandler req env []).response =
        .error { status := 400, cause := .invalidImage } ∧
      lookupSession (generateHandler req env []).sessions req.session_id = none ∧
      getProgress (generateHandler req env []).sessions req.session_id =
        sessionNotFoundRecord) ∧
    (env.decodeOk = true → env.loadOk = false →
      (generateHandler req env []).response =
        .error { status := 500, cause := .loadFailure } ∧
      lookupSession (generateHandler req env []).sessions req.session_id = none ∧
      getProgress (generateHandler req env []).sessions req.session_id =
        sessionNotFoundRecord) ∧
    (env.decodeOk = true → env.loadOk = true →
      (generateHandler req env []).response =
        .error { status := 500, cause := .genFailure .typeError } ∧
      lookupSession (generateHandler req env []).sessions req.session_id = none ∧
      getProgress (generateHandler req env []).sessions req.session_id =
        sessionNotFoundRecord) ∧
    (∀ (s : Sessions) (uploads : List (ℕ × String)),
      (finalizePhase req env s uploads false).1 =
        .error { status := 500, cause := .noMetadata } ∧
      (lookupSession (finalizePhase req env s uploads false).2
        req.session_id).isSome = true) := by
  refine ⟨?_, ?_, ?_, ?_⟩
  · intro h
    refine ⟨?_, ?_, ?_⟩
    · simp [generateHandler, h]
    · simp [generateHandler, h, lookupSession_remove]
    · simp [generateHandler, h, getProgress, lookupSession_remove, sessionNotFoundRecord]
  · intro h1 h2
    refine ⟨?_, ?_, ?_⟩
    · simp [generateHandler, h1, h2]
    · simp [generateHandler, h1, h2, lookupSession_remove]
    · simp [generateHandler, h1, h2, getProgress, lookupSession_remove, sessionNotFoundRecord]
  · intro h1 h2
    refine ⟨?_, ?_, ?_⟩
    · simp [generateHandler, h1, h2, callGenerateGrid_typeError]
    · simp [generateHandler, h1, h2, callGenerateGrid_typeError, lookupSession_remove]
    · simp [generateHandler, h1, h2, callGenerateGrid_typeError, getProgress,
        lookupSession_remove, sessionNotFoundRecord]
  · intro s uploads
    constructor
    · simp [finalizePhase]
    · simp [finalizePhase, progressUpdate, lookupSession_set]

/-- Counterexample for C7 as stated: a concrete run of the missing-metadata
path raises 500 while the session's record is still in the progress map. -/
theorem c7_counterexample :
    (finalizePhase reqNoStorage envAllOk
        [(reqNoStorage.session_id, initRecord 4)] [] false).1 =
      .error { status := 500, cause := .noMetadata } ∧
    (lookupSession (finalizePhase reqNoStorage envAllOk
        [(reqNoStorage.session_id, initRecord 4)] [] false).2
      reqNoStorage.session_id).isSome = true :=
  ⟨rfl, rfl⟩

/-- Witness for C7 at concrete requests and environments. -/
theorem c7_fatal_paths_cleanup_witness :
    ((generateHandler reqNoStorage envDecodeFail []).response =
        .error { status := 400, cause := .invalidImage } ∧
      lookupSession (generateHandler reqNoStorage envDecodeFail []).sessions
        reqNoStorage.session_id = none ∧
      getProgress (generateHandler reqNoStorage envDecodeFail []).sessions
        reqNoStorage.session_id = sessionNotFoundRecord) ∧
    ((generateHandler reqNoStorage envLoadFail []).response =
        .error { status := 500, cause := .loadFailure } ∧
      lookupSession (generateHandler reqNoStorage envLoadFail []).sessions
        reqNoStorage.session_id = none ∧
      getProgress (generateHandler reqNoStorage envLoadFail []).sessions
        reqNoStorage.session_id = sessionNotFoundRecord) ∧
    ((generateHandler reqNoStorage envAllOk []).response =
        .error { status := 500, cause := .genFailure .typeError } ∧
      lookupSession (generateHandler reqNoStorage envAllOk []).sessions
        reqNoStorage.session_id = none ∧
      getProgress (generateHandler reqNoStorage envAllOk []).sessions
        reqNoStorage.session_id = sessionNotFoundRecord) ∧
    ((finalizePhase reqNoStorage envAllOk [] [] false).1 =
        .error { status := 500, cause := .noMetadata } ∧
      (lookupSession (finalizePhase reqNoStorage envAllOk [] [] false).2
        reqNoStorage.session_id).isSome = true) :=
  ⟨(c7_fatal_paths_cleanup reqNoStorage envDecodeFail).1 rfl,
   (c7_fatal_paths_cleanup reqNoStorage envLoadFail).2.1 rfl rfl,
   (c7_fatal_paths_cleanup reqNoStorage envAllOk).2.2.1 rfl rfl,
   (c7_fatal_paths_cleanup reqNoStorage envAllOk).2.2.2 [] []⟩

/-- Claim C8 (code-bug evidence): the upload coroutine's status update is
indeed isolated — a failing upload sets only its own quadrant to `"error"`,
a succeeding one sets only its own quadrant to `done`, and nothing is retried
— but in the shipped code no upload is ever scheduled: the handler's
`generate_grid` call raises `TypeError` before any quadrant-ready
notification can fire, so the request answers 500 instead of `complete`. -/
theorem c8_upload_isolation :
    (generateHandler reqWithR2 envAllOk []).scheduledUploads = [] ∧
    (generateHandler reqWithR2 envAllOk []).response =
      .error { status := 500, cause := .genFailure .typeError } ∧
    uploadQuadrantOutcome [("s", initRecord 4)] "s" 3 false =
      [("s", { initRecord 4 with
                quadrants := some ["pending", "pending", "pending", "error",
                  "pending", "pending", "pending", "pending"] })] ∧
    uploadQuadrantOutcome
        (uploadQuadrantOutcome [("s", initRecord 4)] "s" 3 false) "s" 0 true =
      [("s", { initRecord 4 with
                quadrants := some ["done", "pending", "pending", "error",
                  "pending", "pending", "pending", "pending"] })] :=
  ⟨rfl, rfl, rfl, rfl⟩

/-- Claim C10 (amended): the step computation `30 / (grid_size - 1)` is
unguarded — entering the `generate_grid` body with `grid_size = 1` (as a
well-formed call such as the CLI's would) raises `ZeroDivisionError` — and
the request model puts no lower bound on `grid_size`, so a request with
`grid_size = 1` is not rejected as invalid input; it fails the session with
a 500.  The 500 is raised by the handler's argument-count `TypeError`,
however, before the division is ever reached. -/
theorem c10_gridsize_one (env : HandlerEnv) (hface : env.faceOk = true)
    (hd : env.decodeOk = true) (hl : env.loadOk = true) :
    generateGridBody 1 env = .error .zeroDivision ∧
    (generateHandler reqGridOne env []).response =
      .error { status := 500, cause := .genFailure .typeError } ∧
    lookupSession (generateHandler reqGridOne env []).sessions
      reqGridOne.session_id = none := by
  refine ⟨?_, ?_, ?_⟩
  · rw [generateGridBody, hface]
    simp
  · simp [generateHandler, hd, hl, callGenerateGrid_typeError]
  · simp [generateHandler, hd, hl, callGenerateGrid_typeError, lookupSession_remove]

/-- Counterexample for C10 as stated: the 500 produced for a `grid_size = 1`
request is caused by the call-arity `TypeError`, not by the
`ZeroDivisionError` of the step computation — the division is never
reached. -/
theorem c10_counterexample :
    (generateHandler reqGridOne envAllOk []).response =
      .error { status := 500, cause := .genFailure .typeError } ∧
    callGenerateGrid reqGridOne.grid_size envAllOk = .error .typeError ∧
    PyError.typeError ≠ PyError.zeroDivision :=
  ⟨rfl, rfl, by decide⟩

/-- Witness for C10 in the all-successful environment. -/
theorem c10_gridsize_one_witness :
    generateGridBody 1 envAllOk = .error .zeroDivision ∧
    (generateHandler reqGridOne envAllOk []).response =
      .error { status := 500, cause := .genFailure .typeError } :=
  ⟨(c10_gridsize_one envAllOk rfl rfl rfl).1,
   (c10_gridsize_one envAllOk rfl rfl rfl).2.1⟩

end GazeApp
